import Mathlib

/-!
Verification of the Theseus x86_64 virtual-memory mapping engine
(`kernel/memory/src/paging/mapper.rs`, `kernel/memory_structs/src/lib.rs`,
`kernel/crate_metadata/src/lib.rs`) against its natural-language
specification.

Machine integers (`usize`/`u64`) are modelled as `Nat` with explicit
wrapping modulo `2^64` where the Rust code's release-mode arithmetic wraps.
Page tables are modelled as a four-level family of entry maps addressed by
the index path, which is faithful to the recursive-mapping layout in which
every table is reachable from the P4 along a unique index path.
-/

namespace Theseus

/-- `kernel_config::memory::PAGE_SIZE` -/
def PAGE_SIZE : Nat := 4096

/-- `kernel_config::memory::ENTRIES_PER_PAGE_TABLE` -/
def ENTRIES_PER_PAGE_TABLE : Nat := 512

/-- Modulus of the 64-bit `usize` arithmetic. -/
def USIZE : Nat := 2 ^ 64

/-- Wrapping 64-bit addition (Rust release-mode `+` on `usize`). -/
def usizeAdd (a b : Nat) : Nat := (a + b) % USIZE

/-- Wrapping 64-bit subtraction (Rust release-mode `-` on `usize`). -/
def usizeSub (a b : Nat) : Nat := (USIZE + a % USIZE - b % USIZE) % USIZE

/-- Wrapping 64-bit multiplication. -/
def usizeMul (a b : Nat) : Nat := (a * b) % USIZE

/-- Saturating 64-bit addition (`usize::saturating_add`). -/
def usizeSatAdd (a b : Nat) : Nat := min (a + b) (USIZE - 1)

/-- `VirtualAddress::new_canonical`: force bits 48..64 to be the
sign-extension of bit 47, via `((v << 16) as isize >> 16) as usize`. -/
def canonicalVA (v : Nat) : Nat :=
  if 2 ^ 47 ≤ v % 2 ^ 48 then v % 2 ^ 48 + (USIZE - 2 ^ 48) else v % 2 ^ 48

/-- `PhysicalAddress::new_canonical`: clear bits 52..64. -/
def canonicalPA (p : Nat) : Nat := p % 2 ^ 52

/-- `impl Add<usize> for VirtualAddress`: saturating add, re-canonicalized. -/
def vaddAdd (a off : Nat) : Nat := canonicalVA (usizeSatAdd a off)

/-- `impl Add<usize> for PhysicalAddress`: saturating add, re-canonicalized. -/
def paddAdd (a off : Nat) : Nat := canonicalPA (usizeSatAdd a off)

/-- `VirtualAddress::page_offset`: `v & (PAGE_SIZE - 1)`. -/
def pageOffset (v : Nat) : Nat := v % PAGE_SIZE

/-- `Page::p4_index`: `(n >> 27) & 0x1FF` of the page number. -/
def p4Index (n : Nat) : Nat := (n / 2 ^ 27) % 512

/-- `Page::p3_index`: `(n >> 18) & 0x1FF`. -/
def p3Index (n : Nat) : Nat := (n / 2 ^ 18) % 512

/-- `Page::p2_index`: `(n >> 9) & 0x1FF`. -/
def p2Index (n : Nat) : Nat := (n / 2 ^ 9) % 512

/-- `Page::p1_index`: `n & 0x1FF`. -/
def p1Index (n : Nat) : Nat := n % 512

/-- `Page::start_address`: `VirtualAddress::new_canonical(number * PAGE_SIZE)`. -/
def pageStartAddress (n : Nat) : Nat := canonicalVA (n * PAGE_SIZE)

/-- `Frame::start_address`: `PhysicalAddress::new_canonical(number * PAGE_SIZE)`. -/
def frameStartAddress (n : Nat) : Nat := canonicalPA (n * PAGE_SIZE)

/-- `HugePageSize::huge_page_ratio` (`memory_structs/src/lib.rs`): matches the
size in bytes against 4 KiB, 2 MiB and 1 GiB, returning 1, 512 and 512*512. -/
def hugePageRatio (sizeInBytes : Nat) : Nat :=
  if sizeInBytes = 4096 then 1
  else if sizeInBytes = 2 * 1024 * 1024 then 512
  else if sizeInBytes = 1024 * 1024 * 1024 then 512 * 512
  else 1

/-- An inclusive `PageRange` (`memory_structs`): start and end page numbers. -/
structure PageRange where
  startP : Nat
  endP : Nat
deriving DecidableEq, Repr

/-- `PageRange::empty()`: the range from page 1 down to page 0. -/
def PageRange.emptyRange : PageRange := ⟨1, 0⟩

/-- `RangeInclusive::is_empty` for a `PageRange`: `start > end`. -/
def PageRange.isEmpty (r : PageRange) : Bool := r.endP < r.startP

/-- `PageRange::size_in_pages`: `end.number + 1 - start.number` in `usize`
arithmetic (wrapping in release mode). -/
def PageRange.size_in_pages (r : PageRange) : Nat :=
  usizeSub (usizeAdd r.endP 1) r.startP

/-- `PageRange::size_in_bytes`: `size_in_pages * PAGE_SIZE` in `usize`. -/
def PageRange.size_in_bytes (r : PageRange) : Nat :=
  usizeMul r.size_in_pages PAGE_SIZE

/-- `PageRange::start_address`. -/
def PageRange.start_address (r : PageRange) : Nat := pageStartAddress r.startP

/-- `PageRange::address_at_offset`: `Some(start_address + offset)` when
`offset <= size_in_bytes`, else `None`. -/
def PageRange.address_at_offset (r : PageRange) (offset : Nat) : Option Nat :=
  if offset ≤ r.size_in_bytes then some (vaddAdd r.start_address offset)
  else none

/-- An inclusive `FrameRange` (`memory_structs`). -/
structure FrameRange where
  startF : Nat
  endF : Nat
deriving DecidableEq, Repr

/-- `FrameRange::size_in_frames`: `end.number + 1 - start.number` in `usize`. -/
def FrameRange.size_in_frames (r : FrameRange) : Nat :=
  usizeSub (usizeAdd r.endF 1) r.startF

/-- `FrameRange::start_address`. -/
def FrameRange.start_address (r : FrameRange) : Nat := frameStartAddress r.startF

/-- `FrameRange::start_frame`: `Frame::containing_address(start_address)`,
i.e. the start frame number again. -/
def FrameRange.start_frame (r : FrameRange) : Nat := r.start_address / PAGE_SIZE

/-- A `HugePage` (`memory_structs`): page number plus its intrinsic
`HugePageSize` value in bytes. -/
structure HugePage where
  number : Nat
  pageSize : Nat
deriving DecidableEq, Repr

/-- `HugePage::p4_index`: `(number * ratio >> 27) & 0x1FF`. -/
def HugePage.hp4Index (p : HugePage) : Nat := p4Index (p.number * hugePageRatio p.pageSize)

/-- `HugePage::p3_index`. -/
def HugePage.hp3Index (p : HugePage) : Nat := p3Index (p.number * hugePageRatio p.pageSize)

/-- `HugePage::p2_index`. -/
def HugePage.hp2Index (p : HugePage) : Nat := p2Index (p.number * hugePageRatio p.pageSize)

/-- `HugePage::p1_index`. -/
def HugePage.hp1Index (p : HugePage) : Nat := p1Index (p.number * hugePageRatio p.pageSize)

/-- `HugePage::start_address`: `new_canonical(number * page_size.value())`. -/
def HugePage.hstart_address (p : HugePage) : Nat := canonicalVA (p.number * p.pageSize)

/-- An inclusive `HugePageRange` (`memory_structs`); both bounds carry the
same `HugePageSize`, kept once here. -/
structure HugePageRange where
  startP : Nat
  endP : Nat
  pageSize : Nat
deriving DecidableEq, Repr

/-- `HugePageRange::size_in_pages`: `end.number + 1 - start.number`. -/
def HugePageRange.size_in_pages (r : HugePageRange) : Nat :=
  usizeSub (usizeAdd r.endP 1) r.startP

/-- `HugePageRange::size_in_bytes`: `size_in_pages * page_size.value()`. -/
def HugePageRange.size_in_bytes (r : HugePageRange) : Nat :=
  usizeMul r.size_in_pages r.pageSize

/-- `HugePageRange::start_address`. -/
def HugePageRange.start_address (r : HugePageRange) : Nat :=
  canonicalVA (r.startP * r.pageSize)

/-- `HugePageRange::address_at_offset`: same shape as the `PageRange` one. -/
def HugePageRange.address_at_offset (r : HugePageRange) (offset : Nat) : Option Nat :=
  if offset ≤ r.size_in_bytes then some (vaddAdd r.start_address offset)
  else none

/-! ## Page-table entries and flags

Modelled from the spec: the page-table access layer (`paging/table.rs` and
the `entryflags_x86_64` crate) is not among this repository's files; §4.2 and
§6 of the spec describe it: an entry is a 64-bit value, `is_unused` means all
bits zero, setting an entry is `value = (frame.start_address & ADDR_MASK) |
flags | PRESENT`, and the flag bit positions are PRESENT (bit 0), WRITABLE
(bit 1), HUGE_PAGE (bit 7), NO_EXECUTE (bit 63). -/

/-- Mask selecting the frame-address bits 12..52 of an entry. -/
def ADDR_MASK : Nat := 0x000FFFFFFFFFF000

/-- `EntryFlags::is_present` on the 64-bit flag/entry bits. -/
def isPresentBits (b : Nat) : Bool := b.testBit 0

/-- `EntryFlags::is_writable`. -/
def isWritableBits (b : Nat) : Bool := b.testBit 1

/-- `EntryFlags::is_huge`. -/
def isHugeBits (b : Nat) : Bool := b.testBit 7

/-- `flags.set(EntryFlags::NO_EXECUTE, false)`: clear bit 63, the top bit of
the 64-bit flag word, leaving the rest. -/
def clearNoExec (f : Nat) : Nat := f % 2 ^ 63

/-- Modelled from the spec: setting an entry is
`value = (frame.start_address & ADDR_MASK) | flags | PRESENT`. -/
def entrySet (frame flags : Nat) : Nat :=
  ((frame * PAGE_SIZE) &&& ADDR_MASK) ||| flags ||| 1

/-- `Entry::is_unused`: all bits zero. -/
def entryIsUnused (e : Nat) : Bool := e == 0

/-- Modelled from the spec: `pointed_frame` yields the frame held in the
entry's address bits when the entry is present, and `None` otherwise. -/
def entryPointedFrame (e : Nat) : Option Nat :=
  if isPresentBits e then some ((e &&& ADDR_MASK) / PAGE_SIZE) else none

/-- Whether `next_table(i)` on this parent entry yields a child table:
present and not huge (a huge entry is a leaf, not a table pointer). -/
def entryGivesTable (e : Nat) : Bool := isPresentBits e && !isHugeBits e

/-! ## The mapper state

The four page-table levels of one address space, addressed by index path,
plus the frame allocator (out of scope per the spec, modelled as a counter
handing out fresh frame numbers) and the virtual page allocator (likewise,
a counter handing out fresh page numbers). -/

structure MSt where
  p4e : Nat → Nat
  p3e : Nat → Nat → Nat
  p2e : Nat → Nat → Nat → Nat
  p1e : Nat → Nat → Nat → Nat → Nat
  /-- Frame allocator: next free frame number. -/
  ctr : Nat
  /-- Page allocator: next free page number. -/
  pctr : Nat

/-- Pointwise update of a one-argument table. -/
def upd1 (f : Nat → Nat) (i v : Nat) : Nat → Nat :=
  fun a => if a = i then v else f a

/-- The initial state: every entry unused. -/
def MSt.zeroed (ctr pctr : Nat) : MSt :=
  { p4e := fun _ => 0, p3e := fun _ _ => 0, p2e := fun _ _ _ => 0,
    p1e := fun _ _ _ _ => 0, ctr := ctr, pctr := pctr }

/-- `FrameAllocator::allocate_frame` on the counter model: the next frame. -/
def allocateFrame (st : MSt) : Nat × MSt :=
  (st.ctr, { st with ctr := st.ctr + 1 })

/-- `allocate_alligned_frames(count, alignment)` on the counter model: the
next aligned block of `count` frames. -/
def allocateAlignedFrames (st : MSt) (count align : Nat) : FrameRange × MSt :=
  let start := align * ((st.ctr + align - 1) / align)
  (⟨start, start + count - 1⟩, { st with ctr := start + count })

/-- `paging::allocate_pages(count)` on the counter model. -/
def allocatePages (st : MSt) (count : Nat) : PageRange × MSt :=
  (⟨st.pctr, st.pctr + count - 1⟩, { st with pctr := st.pctr + count })

/-- Modelled from the spec: `next_table_create` at the P4 level. When the
entry is unused it allocates a fresh frame, zeroes the new P3 table and sets
the parent entry to it with the given flags; when the entry already yields a
table it is left alone; a present huge parent fails the helper's assertion. -/
def nextTableCreateP4 (st : MSt) (i flags : Nat) : Except String MSt :=
  let e := st.p4e i
  if entryIsUnused e then
    let (frame, st1) := allocateFrame st
    Except.ok { st1 with
      p4e := upd1 st1.p4e i (entrySet frame flags),
      p3e := fun a b => if a = i then 0 else st1.p3e a b }
  else if entryGivesTable e then Except.ok st
  else Except.error "next_table_create: parent entry is a huge leaf"

/-- Modelled from the spec: `next_table_create` at the P3 level (path `i`). -/
def nextTableCreateP3 (st : MSt) (i j flags : Nat) : Except String MSt :=
  let e := st.p3e i j
  if entryIsUnused e then
    let (frame, st1) := allocateFrame st
    Except.ok { st1 with
      p3e := fun a b => if a = i ∧ b = j then entrySet frame flags else st1.p3e a b,
      p2e := fun a b c => if a = i ∧ b = j then 0 else st1.p2e a b c }
  else if entryGivesTable e then Except.ok st
  else Except.error "next_table_create: parent entry is a huge leaf"

/-- Modelled from the spec: `next_table_create` at the P2 level (path `i,j`). -/
def nextTableCreateP2 (st : MSt) (i j k flags : Nat) : Except String MSt :=
  let e := st.p2e i j k
  if entryIsUnused e then
    let (frame, st1) := allocateFrame st
    Except.ok { st1 with
      p2e := fun a b c => if a = i ∧ b = j ∧ c = k then entrySet frame flags else st1.p2e a b c,
      p1e := fun a b c d => if a = i ∧ b = j ∧ c = k then 0 else st1.p1e a b c d }
  else if entryGivesTable e then Except.ok st
  else Except.error "next_table_create: parent entry is a huge leaf"

/-! ## Mapper operations (`paging/mapper.rs`) -/

/-- A `MappedPages` handle: the P4 frame it was mapped into, the owned page
range and the effective flags. -/
structure MappedPages where
  page_table_p4 : Nat
  pages : PageRange
  flags : Nat
deriving DecidableEq, Repr

/-- A `MappedHugePages` handle. -/
structure MappedHugePages where
  page_table_p4 : Nat
  pages : HugePageRange
  flags : Nat
deriving DecidableEq, Repr

/-- The pages a `PageRange` iterates over (`RangeInclusive` yields nothing
when `start > end`). -/
def PageRange.iter (r : PageRange) : List Nat :=
  if r.startP ≤ r.endP then (List.range (r.endP + 1 - r.startP)).map (r.startP + ·)
  else []

/-- The frames a `FrameRange` iterates over. -/
def FrameRange.iter (r : FrameRange) : List Nat :=
  if r.startF ≤ r.endF then (List.range (r.endF + 1 - r.startF)).map (r.startF + ·)
  else []

/-- The huge pages a `HugePageRange` iterates over. -/
def HugePageRange.iter (r : HugePageRange) : List HugePage :=
  if r.startP ≤ r.endP then
    (List.range (r.endP + 1 - r.startP)).map (fun i => ⟨r.startP + i, r.pageSize⟩)
  else []

/-- One iteration of the loop in `Mapper::map_allocated_pages_to`: create the
P3/P2/P1 path for `page` with the top-level flags, then require the P1 entry
to be unused and set it to `(frame, flags | PRESENT)`. On failure the state
mutated so far is kept, as in the source. -/
def mapOnePage (st : MSt) (page frame flags top : Nat) : (Except String Unit) × MSt :=
  match nextTableCreateP4 st (p4Index page) top with
  | Except.error e => (Except.error e, st)
  | Except.ok st1 =>
    match nextTableCreateP3 st1 (p4Index page) (p3Index page) top with
    | Except.error e => (Except.error e, st1)
    | Except.ok st2 =>
      match nextTableCreateP2 st2 (p4Index page) (p3Index page) (p2Index page) top with
      | Except.error e => (Except.error e, st2)
      | Except.ok st3 =>
        if !entryIsUnused (st3.p1e (p4Index page) (p3Index page) (p2Index page) (p1Index page)) then
          (Except.error "map_allocated_pages_to(): page was already in use", st3)
        else
          (Except.ok (),
           { st3 with p1e := fun a b c d =>
               if a = p4Index page ∧ b = p3Index page ∧ c = p2Index page ∧ d = p1Index page
               then entrySet frame (flags ||| 1) else st3.p1e a b c d })

/-- The page-and-frame loop of `map_allocated_pages_to`, in lockstep. -/
def mapPagesLoop (flags top : Nat) : List (Nat × Nat) → MSt → (Except String Unit) × MSt
  | [], st => (Except.ok (), st)
  | (page, frame) :: rest, st =>
    match mapOnePage st page frame flags top with
    | (Except.error e, st1) => (Except.error e, st1)
    | (Except.ok _, st1) => mapPagesLoop flags top rest st1

/-- `Mapper::map_allocated_pages_to(pages, frames, flags)`: clears NO_EXECUTE
for the top-level flags, requires equal page and frame counts, then maps each
(page, frame) pair in lockstep, returning a `MappedPages` bound to
`target_p4` on success. -/
def mapAllocatedPagesTo (st : MSt) (p4frame : Nat) (pages : PageRange)
    (frames : FrameRange) (flags : Nat) : (Except String MappedPages) × MSt :=
  let top := clearNoExec flags
  if pages.size_in_pages ≠ frames.size_in_frames then
    (Except.error "map_allocated_pages_to(): page count must equal frame count", st)
  else
    match mapPagesLoop flags top (pages.iter.zip frames.iter) st with
    | (Except.error e, st1) => (Except.error e, st1)
    | (Except.ok _, st1) => (Except.ok ⟨p4frame, pages, flags⟩, st1)

/-- The per-page loop of `Mapper::map_allocated_pages`: allocate one frame
for the page, then proceed as in `map_allocated_pages_to`. -/
def mapPagesAllocLoop (flags top : Nat) : List Nat → MSt → (Except String Unit) × MSt
  | [], st => (Except.ok (), st)
  | page :: rest, st =>
    let (frame, st1) := allocateFrame st
    match mapOnePage st1 page frame flags top with
    | (Except.error e, st2) => (Except.error e, st2)
    | (Except.ok _, st2) => mapPagesAllocLoop flags top rest st2

/-- `Mapper::map_allocated_pages(pages, flags)`: like `map_allocated_pages_to`
but asks the frame allocator for one frame per page. -/
def mapAllocatedPages (st : MSt) (p4frame : Nat) (pages : PageRange)
    (flags : Nat) : (Except String MappedPages) × MSt :=
  let top := clearNoExec flags
  match mapPagesAllocLoop flags top pages.iter st with
  | (Except.error e, st1) => (Except.error e, st1)
  | (Except.ok _, st1) => (Except.ok ⟨p4frame, pages, flags⟩, st1)

/-- One iteration of the loop in `Mapper::map_allocated_huge_pages`:
allocate an aligned block of `huge_page_ratio` frames, then dispatch on the
value of `huge_page_ratio()`: 1 maps a P1 leaf; 9 a P2 leaf with HUGE_PAGE;
18 a P3 leaf with HUGE_PAGE; any other ratio value falls through every
branch and writes nothing (the literals 9 and 18 are the source's own). -/
def mapOneHugePage (st : MSt) (page : HugePage) (flags top : Nat) :
    (Except String Unit) × MSt :=
  let ratio := hugePageRatio page.pageSize
  let (frameSet, st0) := allocateAlignedFrames st ratio ratio
  if ratio = 1 then
    match nextTableCreateP4 st0 page.hp4Index top with
    | Except.error e => (Except.error e, st0)
    | Except.ok st1 =>
      match nextTableCreateP3 st1 page.hp4Index page.hp3Index top with
      | Except.error e => (Except.error e, st1)
      | Except.ok st2 =>
        match nextTableCreateP2 st2 page.hp4Index page.hp3Index page.hp2Index top with
        | Except.error e => (Except.error e, st2)
        | Except.ok st3 =>
          if !entryIsUnused (st3.p1e page.hp4Index page.hp3Index page.hp2Index page.hp1Index) then
            (Except.error "map_allocated_pages(): page was already in use", st3)
          else
            (Except.ok (),
             { st3 with p1e := fun a b c d =>
                 if a = page.hp4Index ∧ b = page.hp3Index ∧ c = page.hp2Index ∧ d = page.hp1Index
                 then entrySet frameSet.start_frame (flags ||| 1) else st3.p1e a b c d })
  else if ratio = 9 then
    match nextTableCreateP4 st0 page.hp4Index top with
    | Except.error e => (Except.error e, st0)
    | Except.ok st1 =>
      match nextTableCreateP3 st1 page.hp4Index page.hp3Index top with
      | Except.error e => (Except.error e, st1)
      | Except.ok st2 =>
        if !entryIsUnused (st2.p2e page.hp4Index page.hp3Index page.hp2Index) then
          (Except.error "map_allocated_pages(): page was already in use", st2)
        else
          (Except.ok (),
           { st2 with p2e := fun a b c =>
               if a = page.hp4Index ∧ b = page.hp3Index ∧ c = page.hp2Index
               then entrySet frameSet.start_frame (flags ||| (1 ||| 128)) else st2.p2e a b c })
  else if ratio = 18 then
    match nextTableCreateP4 st0 page.hp4Index top with
    | Except.error e => (Except.error e, st0)
    | Except.ok st1 =>
      if !entryIsUnused (st1.p3e page.hp4Index page.hp3Index) then
        (Except.error "map_allocated_pages(): page was already in use", st1)
      else
        (Except.ok (),
         { st1 with p3e := fun a b =>
             if a = page.hp4Index ∧ b = page.hp3Index
             then entrySet frameSet.start_frame (flags ||| (1 ||| 128)) else st1.p3e a b })
  else
    (Except.ok (), st0)

/-- The loop of `map_allocated_huge_pages` over the huge-page range. -/
def mapHugePagesLoop (flags top : Nat) : List HugePage → MSt → (Except String Unit) × MSt
  | [], st => (Except.ok (), st)
  | page :: rest, st =>
    match mapOneHugePage st page flags top with
    | (Except.error e, st1) => (Except.error e, st1)
    | (Except.ok _, st1) => mapHugePagesLoop flags top rest st1

/-- `Mapper::map_allocated_huge_pages(pages, flags)`. -/
def mapAllocatedHugePages (st : MSt) (p4frame : Nat) (pages : HugePageRange)
    (flags : Nat) : (Except String MappedHugePages) × MSt :=
  let top := clearNoExec flags
  match mapHugePagesLoop flags top pages.iter st with
  | (Except.error e, st1) => (Except.error e, st1)
  | (Except.ok _, st1) => (Except.ok ⟨p4frame, pages, flags⟩, st1)

/-! ## The page-walk (`Mapper::translate_page` / `Mapper::translate`) -/

/-- Result of a page walk: a found frame (or, for `translate`, a physical
address), a missing step (`None` in the source), or a failed alignment
assertion (the source's `assert!` aborts). -/
inductive WalkResult where
  | found (value : Nat)
  | notMapped
  | panicked
deriving DecidableEq, Repr

/-- The `huge_page` closure inside `Mapper::translate_page`: with the P3
table reachable, a present huge P3 entry yields `start_frame + p2_index *
ENTRIES_PER_PAGE_TABLE + p1_index` after asserting 1 GiB alignment of the
start frame; otherwise a present huge P2 entry (through a non-huge P3 entry)
yields `start_frame + p1_index` after asserting 2 MiB alignment. -/
def hugePageWalk (st : MSt) (page : Nat) : WalkResult :=
  let i := p4Index page
  let j := p3Index page
  let k := p2Index page
  let l := p1Index page
  if entryGivesTable (st.p4e i) then
    let p3entry := st.p3e i j
    match entryPointedFrame p3entry with
    | some startFrame =>
      if isHugeBits p3entry then
        if startFrame % (ENTRIES_PER_PAGE_TABLE * ENTRIES_PER_PAGE_TABLE) = 0 then
          WalkResult.found (startFrame + k * ENTRIES_PER_PAGE_TABLE + l)
        else WalkResult.panicked
      else
        if entryGivesTable p3entry then
          let p2entry := st.p2e i j k
          match entryPointedFrame p2entry with
          | some sf2 =>
            if isHugeBits p2entry then
              if sf2 % ENTRIES_PER_PAGE_TABLE = 0 then WalkResult.found (sf2 + l)
              else WalkResult.panicked
            else WalkResult.notMapped
          | none => WalkResult.notMapped
        else WalkResult.notMapped
    | none =>
      if entryGivesTable p3entry then
        let p2entry := st.p2e i j k
        match entryPointedFrame p2entry with
        | some sf2 =>
          if isHugeBits p2entry then
            if sf2 % ENTRIES_PER_PAGE_TABLE = 0 then WalkResult.found (sf2 + l)
            else WalkResult.panicked
          else WalkResult.notMapped
        | none => WalkResult.notMapped
      else WalkResult.notMapped
  else WalkResult.notMapped

/-- `Mapper::translate_page`: the plain P4→P3→P2→P1 descent, falling back to
the `huge_page` closure (`or_else`) when any of its steps yields `None`. -/
def translatePage (st : MSt) (page : Nat) : WalkResult :=
  let i := p4Index page
  let j := p3Index page
  let k := p2Index page
  let l := p1Index page
  let plain : Option Nat :=
    if entryGivesTable (st.p4e i) then
      if entryGivesTable (st.p3e i j) then
        if entryGivesTable (st.p2e i j k) then entryPointedFrame (st.p1e i j k l)
        else none
      else none
    else none
  match plain with
  | some frame => WalkResult.found frame
  | none => hugePageWalk st page

/-- `Mapper::translate`: translate the containing page and add the start
address of the resulting frame to the page offset. -/
def translate (st : MSt) (v : Nat) : WalkResult :=
  match translatePage st (v / PAGE_SIZE) with
  | WalkResult.found frame => WalkResult.found (paddAdd (frameStartAddress frame) (pageOffset v))
  | WalkResult.notMapped => WalkResult.notMapped
  | WalkResult.panicked => WalkResult.panicked

/-! ## `MappedPages` operations -/

/-- `MappedPages::size_in_bytes` (via `Deref` to the page range). -/
def MappedPages.size_in_bytes (mp : MappedPages) : Nat := mp.pages.size_in_bytes

/-- A borrowed slice into a mapping: its start address and element count,
as produced by `slice::from_raw_parts`. -/
structure SliceRef where
  addr : Nat
  len : Nat
deriving DecidableEq, Repr

/-- `MappedPages::as_slice::<T>(byte_offset, length)` for an element type of
size `sizeT`: checks `byte_offset + length * size_of::<T>() <=
size_in_bytes`, then returns the slice at `start_address + byte_offset`. -/
def MappedPages.as_slice (mp : MappedPages) (sizeT byteOffset length : Nat) :
    Except String SliceRef :=
  let endB := usizeAdd byteOffset (usizeMul length sizeT)
  if endB > mp.size_in_bytes then
    Except.error "requested slice length and offset would not fit within the MappedPages bounds"
  else
    Except.ok ⟨usizeAdd mp.pages.start_address byteOffset, length⟩

/-- `MappedPages::as_slice_mut`: first requires the mapping to be writable,
then performs the same bounds check as `as_slice`. -/
def MappedPages.as_slice_mut (mp : MappedPages) (sizeT byteOffset length : Nat) :
    Except String SliceRef :=
  if !isWritableBits mp.flags then
    Except.error "as_slice_mut(): MappedPages were not writable"
  else
    let endB := usizeAdd byteOffset (usizeMul length sizeT)
    if endB > mp.size_in_bytes then
      Except.error "requested slice length and offset would not fit within the MappedPages bounds"
    else
      Except.ok ⟨usizeAdd mp.pages.start_address byteOffset, length⟩

/-- `MappedPages::as_type::<T>(offset)` for a type of size `sizeT`: bounds
check, then the reference's address. -/
def MappedPages.as_type (mp : MappedPages) (sizeT offset : Nat) : Except String Nat :=
  let endB := usizeAdd offset sizeT
  if endB > mp.size_in_bytes then
    Except.error "requested type and offset would not fit within the MappedPages bounds"
  else
    Except.ok (usizeAdd mp.pages.start_address offset)

/-- `MappedPages::as_type_mut::<T>(offset)`: the writability check comes
first, before any bounds check. -/
def MappedPages.as_type_mut (mp : MappedPages) (sizeT offset : Nat) : Except String Nat :=
  if !isWritableBits mp.flags then
    Except.error "as_type_mut(): MappedPages were not writable"
  else
    let endB := usizeAdd offset sizeT
    if endB > mp.size_in_bytes then
      Except.error "requested type and offset would not fit within the MappedPages bounds"
    else
      Except.ok (usizeAdd mp.pages.start_address offset)

/-- The per-page loop of `MappedPages::remap`: descend to the P1 table
(failing on a missing or huge intermediate entry), require the leaf to be
mapped, and rewrite it to `(frame, new_flags | PRESENT)`. -/
def remapLoop (newFlags : Nat) : List Nat → MSt → (Except String Unit) × MSt
  | [], st => (Except.ok (), st)
  | page :: rest, st =>
    let i := p4Index page
    let j := p3Index page
    let k := p2Index page
    let l := p1Index page
    if entryGivesTable (st.p4e i) ∧ entryGivesTable (st.p3e i j) ∧
        entryGivesTable (st.p2e i j k) then
      match entryPointedFrame (st.p1e i j k l) with
      | none => (Except.error "remap(): page not mapped", st)
      | some frame =>
        remapLoop newFlags rest
          { st with p1e := fun a b c d =>
              if a = i ∧ b = j ∧ c = k ∧ d = l then entrySet frame (newFlags ||| 1)
              else st.p1e a b c d }
    else (Except.error "mapping code does not support huge pages", st)

/-- `MappedPages::remap(new_flags)`: a no-op for an empty mapping or
unchanged flags; otherwise rewrites every leaf and updates the handle's
flags. -/
def MappedPages.remap (mp : MappedPages) (st : MSt) (newFlags : Nat) :
    (Except String MappedPages) × MSt :=
  if mp.pages.size_in_pages = 0 then (Except.ok mp, st)
  else if newFlags = mp.flags then (Except.ok mp, st)
  else
    match remapLoop newFlags mp.pages.iter st with
    | (Except.error e, st1) => (Except.error e, st1)
    | (Except.ok _, st1) => (Except.ok { mp with flags := newFlags }, st1)

/-- Modelled from the spec: `AllocatedPages::merge` (the `page_allocator`
crate is not among this repository's files). It succeeds exactly when the
second range starts at the page immediately after the first one's end,
extending the first range; on failure the second range is handed back. -/
def mergeRanges (a b : PageRange) : Except PageRange PageRange :=
  if usizeAdd a.endP 1 = b.startP then Except.ok ⟨a.startP, b.endP⟩
  else Except.error b

/-- `MappedPages::merge(mp)`: checks same P4 frame, then same flags, then
attempts to merge the page ranges (restoring `mp`'s pages on failure, so the
handle given back with the error is unchanged); on success the absorbed
handle's destructor is suppressed (`mem::forget`) and `self` covers the
union. Note the merge never touches the page-table state. -/
def MappedPages.merge (self mp : MappedPages) :
    Except (String × MappedPages) MappedPages :=
  if mp.page_table_p4 ≠ self.page_table_p4 then
    Except.error ("failed to merge MappedPages that were mapped into different page tables", mp)
  else if mp.flags ≠ self.flags then
    Except.error ("failed to merge MappedPages that were mapped with different flags", mp)
  else
    match mergeRanges self.pages mp.pages with
    | Except.error orig =>
      Except.error ("failed to merge MappedPages that weren't virtually contiguous",
        { mp with pages := orig })
    | Except.ok merged => Except.ok { self with pages := merged }

/-- `MappedHugePages::merge(mp)`: unconditionally
`Err(("Merge not yet implemented for huge pages", mp))`. -/
def MappedHugePages.merge (_self mp : MappedHugePages) :
    Except (String × MappedHugePages) Unit :=
  Except.error ("Merge not yet implemented for huge pages", mp)

/-! ## Memory contents and `deep_copy` -/

/-- Virtual memory contents: the byte stored at each virtual address. -/
def Mem : Type := Nat → Nat

/-- `dest.copy_from_slice(source)` over mapped memory: the destination
region takes the source region's bytes, everything else is unchanged. -/
def copyRegion (mem : Mem) (srcAddr dstAddr len : Nat) : Mem :=
  fun a => if dstAddr ≤ a ∧ a < dstAddr + len then mem (srcAddr + (a - dstAddr)) else mem a

/-- `MappedPages::deep_copy(new_flags)`: allocate an equal number of fresh
pages, map them with `new_flags | WRITABLE`, copy the contents page-by-page
through `[u8; PAGE_SIZE]` slices, and remap to `new_flags` only when
`needs_remapping` holds — which the source computes as
`new_flags.is_writable()`, with no negation. -/
def MappedPages.deep_copy (self : MappedPages) (newFlagsOpt : Option Nat)
    (st : MSt) (mem : Mem) : (Except String MappedPages) × MSt × Mem :=
  let n := self.pages.size_in_pages
  let (newPages, st1) := allocatePages st n
  let newFlags := newFlagsOpt.getD self.flags
  let needsRemapping := isWritableBits newFlags
  match mapAllocatedPages st1 self.page_table_p4 newPages (newFlags ||| 2) with
  | (Except.error e, st2) => (Except.error e, st2, mem)
  | (Except.ok newMp, st2) =>
    match self.as_slice PAGE_SIZE 0 n with
    | Except.error e => (Except.error e, st2, mem)
    | Except.ok src =>
      match newMp.as_slice_mut PAGE_SIZE 0 n with
      | Except.error e => (Except.error e, st2, mem)
      | Except.ok dst =>
        let mem1 := copyRegion mem src.addr dst.addr (n * PAGE_SIZE)
        if needsRemapping then
          match newMp.remap st2 newFlags with
          | (Except.error e, st3) => (Except.error e, st3, mem1)
          | (Except.ok newMp2, st3) => (Except.ok newMp2, st3, mem1)
        else (Except.ok newMp, st2, mem1)

/-! ## Relocations (`crate_metadata/src/lib.rs`) -/

/-- `goblin::elf::reloc::R_X86_64_64`. -/
def R_X86_64_64 : Nat := 1

/-- `goblin::elf::reloc::R_X86_64_PC32`. -/
def R_X86_64_PC32 : Nat := 2

/-- `goblin::elf::reloc::R_X86_64_PLT32`. -/
def R_X86_64_PLT32 : Nat := 4

/-- `goblin::elf::reloc::R_X86_64_32`. -/
def R_X86_64_32 : Nat := 10

/-- `goblin::elf::reloc::R_X86_64_PC64`. -/
def R_X86_64_PC64 : Nat := 24

/-- `RelocationEntry`: relocation type code, addend and offset within the
target section. -/
structure RelocationEntry where
  typ : Nat
  addend : Nat
  offset : Nat
deriving DecidableEq, Repr

/-- `RelocationEntry::is_absolute`: true exactly for `R_X86_64_32` and
`R_X86_64_64`. -/
def RelocationEntry.is_absolute (e : RelocationEntry) : Bool :=
  e.typ == R_X86_64_32 || e.typ == R_X86_64_64

/-- Store `width` bytes of `val` little-endian at `addr` (the effect of
`*target_ref = source_val as uN` through the `as_type_mut` reference). -/
def writeBytesLE (mem : Mem) (addr width val : Nat) : Mem :=
  fun a => if addr ≤ a ∧ a < addr + width then (val / 256 ^ (a - addr)) % 256 else mem a

/-- Assemble `width` bytes at `addr` little-endian. -/
def readBytesLE (mem : Mem) (addr : Nat) : Nat → Nat
  | 0 => 0
  | w + 1 => mem addr % 256 + 256 * readBytesLE mem (addr + 1) w

/-- `write_relocation(entry, target_mp, target_offset, source_vaddr)`:
compute `target_offset = target_sec_mapped_pages_offset + entry.offset`,
obtain the `&mut u32`/`&mut u64` through `as_type_mut`, and store the
dictated value with wrapping arithmetic; any unrecognised type code is an
error. -/
def write_relocation (entry : RelocationEntry) (targetMp : MappedPages)
    (targetMpOffset sourceVaddr : Nat) (mem : Mem) : Except String Mem :=
  let targetOffset := usizeAdd targetMpOffset entry.offset
  if entry.typ = R_X86_64_32 then
    match targetMp.as_type_mut 4 targetOffset with
    | Except.error e => Except.error e
    | Except.ok addr =>
      Except.ok (writeBytesLE mem addr 4 ((usizeAdd sourceVaddr entry.addend) % 2 ^ 32))
  else if entry.typ = R_X86_64_64 then
    match targetMp.as_type_mut 8 targetOffset with
    | Except.error e => Except.error e
    | Except.ok addr =>
      Except.ok (writeBytesLE mem addr 8 (usizeAdd sourceVaddr entry.addend))
  else if entry.typ = R_X86_64_PC32 ∨ entry.typ = R_X86_64_PLT32 then
    match targetMp.as_type_mut 4 targetOffset with
    | Except.error e => Except.error e
    | Except.ok addr =>
      Except.ok (writeBytesLE mem addr 4
        ((usizeSub (usizeAdd sourceVaddr entry.addend) addr) % 2 ^ 32))
  else if entry.typ = R_X86_64_PC64 then
    match targetMp.as_type_mut 8 targetOffset with
    | Except.error e => Except.error e
    | Except.ok addr =>
      Except.ok (writeBytesLE mem addr 8 (usizeSub (usizeAdd sourceVaddr entry.addend) addr))
  else
    Except.error "found unsupported relocation type. Are you compiling crates with 'code-model=large'?"

/-! ## Crate metadata: the strong-dependency rewiring of `LoadedCrate::deep_copy` -/

/-- The per-section record relevant to the dependency graph: the section's
start address and its `sections_dependent_on_me` list of weak back-edges
(each the dependent section and the relocation). -/
structure SecRec where
  secStartAddr : Nat
  dependentsOnMe : List (Nat × RelocationEntry)
deriving DecidableEq, Repr

/-- Pointwise update of a section store. -/
def updStore (store : Nat → SecRec) (i : Nat) (v : SecRec) : Nat → SecRec :=
  fun a => if a = i then v else store a

/-- The `sections_i_depend_on` loop of `LoadedCrate::deep_copy` for one new
section: for each strong dependency, when the relocation is **not** absolute,
re-run `write_relocation` against the source section's start address and
append the weak back-edge `(new section, relocation)` to the source's
`sections_dependent_on_me`; an absolute relocation is skipped entirely —
both the rewrite and the push sit inside the same `if !is_absolute` block. -/
def deepCopyStrongDeps (newSecId : Nat) (newSecMp : MappedPages)
    (newSecMpOffset : Nat) (store : Nat → SecRec) (mem : Mem) :
    List (Nat × RelocationEntry) → Except String ((Nat → SecRec) × Mem)
  | [] => Except.ok (store, mem)
  | (srcId, rel) :: rest =>
    if !rel.is_absolute then
      match write_relocation rel newSecMp newSecMpOffset (store srcId).secStartAddr mem with
      | Except.error e => Except.error e
      | Except.ok mem1 =>
        let src := store srcId
        deepCopyStrongDeps newSecId newSecMp newSecMpOffset
          (updStore store srcId
            { src with dependentsOnMe := src.dependentsOnMe ++ [(newSecId, rel)] })
          mem1 rest
    else
      deepCopyStrongDeps newSecId newSecMp newSecMpOffset store mem rest

/-! ## Arithmetic helper lemmas -/

theorem usizeAdd_eq_of_lt (a b : Nat) (h : a + b < USIZE) : usizeAdd a b = a + b := by
  unfold usizeAdd
  exact Nat.mod_eq_of_lt h

theorem usizeSub_eq_of_le (a b : Nat) (hb : b ≤ a) (ha : a < USIZE) : usizeSub a b = a - b := by
  unfold usizeSub
  rw [Nat.mod_eq_of_lt ha, Nat.mod_eq_of_lt (Nat.lt_of_le_of_lt hb ha)]
  have h1 : USIZE + a - b = USIZE + (a - b) := by omega
  rw [h1, Nat.add_mod_left]
  exact Nat.mod_eq_of_lt (by omega)

theorem canonicalVA_lt (v : Nat) : canonicalVA v < USIZE := by
  have h : v % 2 ^ 48 < 2 ^ 48 := Nat.mod_lt _ (by norm_num)
  unfold canonicalVA USIZE
  split <;> omega

theorem size_in_bytes_le (r : PageRange) : r.size_in_bytes ≤ USIZE - PAGE_SIZE := by
  have h : r.size_in_bytes = 4096 * (r.size_in_pages % 2 ^ 52) := by
    unfold PageRange.size_in_bytes usizeMul USIZE PAGE_SIZE
    rw [Nat.mul_comm, show (2 : Nat) ^ 64 = 4096 * 2 ^ 52 by norm_num, Nat.mul_mod_mul_left]
  have h2 : r.size_in_pages % 2 ^ 52 < 2 ^ 52 := Nat.mod_lt _ (by norm_num)
  unfold USIZE PAGE_SIZE
  omega

/-- **C9** counterexample: the constructible range from page 5 down to page 0
is empty (`start > end`), yet its `size_in_pages` is not 0 — the `usize`
subtraction `end + 1 - start` underflows and wraps to `2^64 - 4`. -/
theorem c9_empty_range_nonzero_size :
    (PageRange.mk 5 0).isEmpty = true ∧ (PageRange.mk 5 0).size_in_pages = 2 ^ 64 - 4 := by
  constructor
  · rfl
  · unfold PageRange.size_in_pages usizeSub usizeAdd USIZE
    norm_num

/-- **C9** (amended): `size_in_pages` equals `end - start + 1` whenever
`start ≤ end` (and `size_in_frames` likewise for a `FrameRange`); a range is
empty exactly when `start > end`; the canonical empty range `(1, 0)` has size
0; but `size_in_pages` is not underflow-free on every constructible range:
whenever `start = end + 2` the subtraction wraps to `2^64 - 1`. -/
theorem c9_range_size (r : PageRange) (fr : FrameRange) :
    (r.isEmpty = true ↔ r.endP < r.startP)
    ∧ (r.startP ≤ r.endP → r.endP + 1 < USIZE → r.size_in_pages = r.endP - r.startP + 1)
    ∧ PageRange.emptyRange.size_in_pages = 0
    ∧ (fr.startF ≤ fr.endF → fr.endF + 1 < USIZE → fr.size_in_frames = fr.endF - fr.startF + 1)
    ∧ (r.startP = r.endP + 2 → r.endP + 2 < USIZE → r.size_in_pages = USIZE - 1) := by
  refine ⟨?_, ?_, ?_, ?_, ?_⟩
  · unfold PageRange.isEmpty
    exact decide_eq_true_iff
  · intro hle hlt
    unfold PageRange.size_in_pages
    rw [usizeAdd_eq_of_lt _ _ hlt, usizeSub_eq_of_le _ _ (by omega) hlt]
    omega
  · unfold PageRange.emptyRange PageRange.size_in_pages usizeSub usizeAdd USIZE
    norm_num
  · intro hle hlt
    unfold FrameRange.size_in_frames
    rw [usizeAdd_eq_of_lt _ _ hlt, usizeSub_eq_of_le _ _ (by omega) hlt]
    omega
  · intro heq hlt
    unfold PageRange.size_in_pages
    rw [usizeAdd_eq_of_lt _ _ (by omega), heq]
    unfold usizeSub
    rw [Nat.mod_eq_of_lt (show r.endP + 1 < USIZE by omega),
        Nat.mod_eq_of_lt (show r.endP + 2 < USIZE by omega)]
    have h1 : USIZE + (r.endP + 1) - (r.endP + 2) = USIZE - 1 := by
      unfold USIZE
      omega
    rw [h1]
    exact Nat.mod_eq_of_lt (by unfold USIZE; omega)

/-- **C10**: for both `PageRange` and `HugePageRange`, `address_at_offset o`
yields `some (start_address + o)` exactly when `o ≤ size_in_bytes` — the
one-past-the-end offset is accepted. -/
theorem c10_address_at_offset (r : PageRange) (hr : HugePageRange) (o : Nat) :
    (r.address_at_offset o = some (vaddAdd r.start_address o) ↔ o ≤ r.size_in_bytes)
    ∧ (hr.address_at_offset o = some (vaddAdd hr.start_address o) ↔ o ≤ hr.size_in_bytes) := by
  constructor
  · unfold PageRange.address_at_offset
    split <;> simp_all
  · unfold HugePageRange.address_at_offset
    split <;> simp_all

theorem size_in_bytes_lt (r : PageRange) : r.size_in_bytes < USIZE := by
  have h := size_in_bytes_le r
  unfold USIZE PAGE_SIZE at *
  omega

/-- **C8**: `as_slice::<u8>(0, size_in_bytes)` succeeds and returns a slice
of exactly `size_in_bytes` elements starting at the mapping's start address;
`as_slice::<u8>(0, size_in_bytes + 1)` fails the bounds check; and
`as_type_mut` on a non-writable mapping fails with the not-writable error
before any further check, whatever the requested type size and offset. -/
theorem c8_typed_view_bounds (mp : MappedPages) (sizeT offset : Nat) :
    mp.as_slice 1 0 mp.size_in_bytes =
      Except.ok ⟨mp.pages.start_address, mp.size_in_bytes⟩
    ∧ mp.as_slice 1 0 (mp.size_in_bytes + 1) =
      Except.error "requested slice length and offset would not fit within the MappedPages bounds"
    ∧ (isWritableBits mp.flags = false →
        mp.as_type_mut sizeT offset =
          Except.error "as_type_mut(): MappedPages were not writable") := by
  have hlt : mp.size_in_bytes < USIZE := size_in_bytes_lt mp.pages
  have hle : mp.size_in_bytes ≤ USIZE - PAGE_SIZE := size_in_bytes_le mp.pages
  have hstart : mp.pages.start_address < USIZE := canonicalVA_lt _
  refine ⟨?_, ?_, ?_⟩
  · unfold MappedPages.as_slice
    have h1 : usizeMul mp.size_in_bytes 1 = mp.size_in_bytes := by
      unfold usizeMul
      rw [Nat.mul_one]
      exact Nat.mod_eq_of_lt hlt
    have h2 : usizeAdd 0 mp.size_in_bytes = mp.size_in_bytes := by
      unfold usizeAdd
      rw [Nat.zero_add]
      exact Nat.mod_eq_of_lt hlt
    have h3 : usizeAdd mp.pages.start_address 0 = mp.pages.start_address := by
      unfold usizeAdd
      rw [Nat.add_zero]
      exact Nat.mod_eq_of_lt hstart
    rw [h1, h2, h3]
    simp [MappedPages.size_in_bytes]
  · unfold MappedPages.as_slice
    have hlt1 : mp.size_in_bytes + 1 < USIZE := by
      unfold USIZE PAGE_SIZE at *
      omega
    have h1 : usizeMul (mp.size_in_bytes + 1) 1 = mp.size_in_bytes + 1 := by
      unfold usizeMul
      rw [Nat.mul_one]
      exact Nat.mod_eq_of_lt hlt1
    have h2 : usizeAdd 0 (mp.size_in_bytes + 1) = mp.size_in_bytes + 1 := by
      unfold usizeAdd
      rw [Nat.zero_add]
      exact Nat.mod_eq_of_lt hlt1
    rw [h1, h2]
    simp [MappedPages.size_in_bytes]
  · intro hw
    unfold MappedPages.as_type_mut
    rw [hw]
    simp

/-- **C6**: `MappedPages::merge(other)` succeeds exactly when the other
mapping has the same `target_p4` frame, the same flags, and starts at the
page immediately after this mapping's end; on success the returned handle
covers the union of the two ranges (keeping this mapping's P4 and flags,
with the absorbed handle's destructor suppressed — and the merge, being a
pure function of the two handles, touches no page-table entry); on any
failure the original `other` handle is returned unchanged alongside the
error; for `MappedHugePages`, merge always fails with the merge-unsupported
error, handing back the given handle. -/
theorem c6_merge_laws (self mp : MappedPages) (hself hmp : MappedHugePages) :
    ((∃ res, self.merge mp = Except.ok res) ↔
      (mp.page_table_p4 = self.page_table_p4 ∧ mp.flags = self.flags ∧
       usizeAdd self.pages.endP 1 = mp.pages.startP))
    ∧ (∀ res, self.merge mp = Except.ok res →
        res = ⟨self.page_table_p4, ⟨self.pages.startP, mp.pages.endP⟩, self.flags⟩)
    ∧ (∀ e m2, self.merge mp = Except.error (e, m2) → m2 = mp)
    ∧ MappedHugePages.merge hself hmp =
        Except.error ("Merge not yet implemented for huge pages", hmp) := by
  obtain ⟨mp4, mpp, mpf⟩ := mp
  refine ⟨?_, ?_, ?_, rfl⟩ <;>
  · unfold MappedPages.merge mergeRanges
    by_cases h1 : mp4 = self.page_table_p4 <;>
      by_cases h2 : mpf = self.flags <;>
        by_cases h3 : usizeAdd self.pages.endP 1 = mpp.startP <;>
          simp_all

/-- One 2 MiB huge page (number 1, so virtual address `0x200000`). -/
def c1Pages : HugePageRange := ⟨1, 1, 2 * 1024 * 1024⟩

/-- **C1**: evaluating `map_allocated_huge_pages` on a single 2 MiB page
(whose leaf should be the P2 entry at index path (0,0,1)) returns `Ok`, yet
writes no page-table entry at all — `huge_page_ratio()` is 512 for 2 MiB,
but the source compares it against the literals 9 and 18, so the 2 MiB and
1 GiB branches are dead and the loop body does nothing; translating the
page's address afterwards still finds nothing mapped. -/
theorem c1_huge_map_2mib_writes_no_entry :
    (mapAllocatedHugePages (MSt.zeroed 0 0) 7 c1Pages 3).1 = Except.ok ⟨7, c1Pages, 3⟩
    ∧ hugePageRatio c1Pages.pageSize = 512
    ∧ (HugePage.mk 1 (2 * 1024 * 1024)).hp2Index = 1
    ∧ (mapAllocatedHugePages (MSt.zeroed 0 0) 7 c1Pages 3).2.p2e 0 0 1 = 0
    ∧ (mapAllocatedHugePages (MSt.zeroed 0 0) 7 c1Pages 3).2.p4e 0 = 0
    ∧ translate (mapAllocatedHugePages (MSt.zeroed 0 0) 7 c1Pages 3).2 (2 * 1024 * 1024) =
        WalkResult.notMapped := by
  refine ⟨rfl, rfl, rfl, rfl, rfl, rfl⟩

/-- The existing read-only mapping handed to `deep_copy` in the C2 evidence:
one page at page number 16, flags `PRESENT | NO_EXECUTE` (not writable). -/
def c2Self : MappedPages := ⟨7, ⟨16, 16⟩, 2 ^ 63 + 1⟩

/-- The result of `deep_copy` requesting the same non-writable flags. -/
def c2Run : (Except String MappedPages) × MSt × Mem :=
  MappedPages.deep_copy c2Self (some (2 ^ 63 + 1)) (MSt.zeroed 0 32) (fun _ => 0)

/-- **C2**: `deep_copy(Some(PRESENT | NO_EXECUTE))` on a non-writable
mapping returns `Ok`, but the returned handle's flags are
`PRESENT | WRITABLE | NO_EXECUTE` — not the requested flags — and the new
range's P1 leaf entry is writable: the source computes
`needs_remapping = new_flags.is_writable()` (instead of its negation), so a
non-writable request is never remapped and the new mapping is silently left
writable. -/
theorem c2_deep_copy_left_writable :
    c2Run.1 = Except.ok ⟨7, ⟨32, 32⟩, 2 ^ 63 + 3⟩
    ∧ isWritableBits (2 ^ 63 + 1) = false
    ∧ isWritableBits (2 ^ 63 + 3) = true
    ∧ isWritableBits (c2Run.2.1.p1e 0 0 0 32) = true := by
  refine ⟨rfl, by decide, by decide, rfl⟩

/-- The new (deep-copied) section's mapped region in the C5 evidence:
one writable page at page number 16. -/
def c5Mp : MappedPages := ⟨9, ⟨16, 16⟩, 3⟩

/-- A section store with one source section (id 3) at address 0x1000 and no
weak dependents. -/
def c5Store : Nat → SecRec := fun _ => ⟨4096, []⟩

/-- An absolute relocation (`R_X86_64_64`). -/
def c5Rel : RelocationEntry := ⟨1, 0, 0⟩

/-- A PC-relative relocation (`R_X86_64_PC32`), not absolute. -/
def c5RelPc : RelocationEntry := ⟨2, 0, 0⟩

/-- **C5**: the strong-dependency rewiring of `LoadedCrate::deep_copy`
returns `Ok` but adds **no** weak back-edge for a strong dependency whose
relocation is absolute — the `sections_dependent_on_me.push` sits inside the
`if !is_absolute` block — while the same call with a PC-relative relocation
does append the symmetric weak edge. The crate's own module documentation
states the pairing invariant unconditionally. -/
theorem c5_absolute_dep_unpaired :
    RelocationEntry.is_absolute c5Rel = true
    ∧ (deepCopyStrongDeps 7 c5Mp 0 c5Store (fun _ => 0) [(3, c5Rel)]).map
        (fun sm => (sm.1 3).dependentsOnMe) = Except.ok []
    ∧ (deepCopyStrongDeps 7 c5Mp 0 c5Store (fun _ => 0) [(3, c5RelPc)]).map
        (fun sm => (sm.1 3).dependentsOnMe) = Except.ok [(7, c5RelPc)] := by
  refine ⟨by decide, rfl, rfl⟩

/-- The page-table state for the C3 evidence: the path (0,0,0) down to the
P1 table already exists, the P1 entry for page 8 is unused, and the P1 entry
for page 9 is already occupied (mapped to frame 50). -/
def c3State : MSt :=
  { p4e := fun a => if a = 0 then entrySet 100 3 else 0,
    p3e := fun a b => if a = 0 ∧ b = 0 then entrySet 101 3 else 0,
    p2e := fun a b c => if a = 0 ∧ b = 0 ∧ c = 0 then entrySet 102 3 else 0,
    p1e := fun a b c d => if a = 0 ∧ b = 0 ∧ c = 0 ∧ d = 9 then entrySet 50 3 else 0,
    ctr := 200, pctr := 300 }

/-- **C3** counterexample: `map_allocated_pages_to` over the two pages 8 and
9 (page 9 already mapped) returns the already-in-use error, yet after the
error the P1 entry for page 8 — unused before the call — is left newly set
to `(frame 3, flags | PRESENT)`: the failed operation is not rolled back. -/
theorem c3_error_leaves_new_entry :
    (mapAllocatedPagesTo c3State 7 ⟨8, 9⟩ ⟨3, 4⟩ 3).1 =
      Except.error "map_allocated_pages_to(): page was already in use"
    ∧ c3State.p1e 0 0 0 8 = 0
    ∧ (mapAllocatedPagesTo c3State 7 ⟨8, 9⟩ ⟨3, 4⟩ 3).2.p1e 0 0 0 8 = entrySet 3 (3 ||| 1) := by
  refine ⟨rfl, rfl, rfl⟩

theorem givesTable_not_unused (e : Nat) (h : entryGivesTable e = true) :
    entryIsUnused e = false := by
  by_cases he : e = 0
  · subst he
    simp [entryGivesTable, isPresentBits] at h
  · simp [entryIsUnused, he]

theorem entryIsUnused_eq_false (e : Nat) (h : e ≠ 0) : entryIsUnused e = false := by
  simp [entryIsUnused, h]

theorem nextTableCreateP4_existing (st : MSt) (i flags : Nat)
    (h : entryGivesTable (st.p4e i) = true) :
    nextTableCreateP4 st i flags = Except.ok st := by
  simp [nextTableCreateP4, givesTable_not_unused _ h, h]

theorem nextTableCreateP3_existing (st : MSt) (i j flags : Nat)
    (h : entryGivesTable (st.p3e i j) = true) :
    nextTableCreateP3 st i j flags = Except.ok st := by
  simp [nextTableCreateP3, givesTable_not_unused _ h, h]

theorem nextTableCreateP2_existing (st : MSt) (i j k flags : Nat)
    (h : entryGivesTable (st.p2e i j k) = true) :
    nextTableCreateP2 st i j k flags = Except.ok st := by
  simp [nextTableCreateP2, givesTable_not_unused _ h, h]

/-- The state produced by a successful `mapOnePage` over an existing table
path: only the P1 entry for the page is written. -/
def setP1 (st : MSt) (i j k l frame fl : Nat) : MSt :=
  { st with p1e := fun a b c d =>
      if a = i ∧ b = j ∧ c = k ∧ d = l then entrySet frame fl else st.p1e a b c d }

theorem mapOnePage_sets_entry (st : MSt) (page frame flags top : Nat)
    (h4 : entryGivesTable (st.p4e (p4Index page)) = true)
    (h3 : entryGivesTable (st.p3e (p4Index page) (p3Index page)) = true)
    (h2 : entryGivesTable (st.p2e (p4Index page) (p3Index page) (p2Index page)) = true)
    (h1 : st.p1e (p4Index page) (p3Index page) (p2Index page) (p1Index page) = 0) :
    mapOnePage st page frame flags top =
      (Except.ok (), setP1 st (p4Index page) (p3Index page) (p2Index page) (p1Index page)
        frame (flags ||| 1)) := by
  simp [mapOnePage, setP1, nextTableCreateP4_existing st _ _ h4,
    nextTableCreateP3_existing st _ _ _ h3, nextTableCreateP2_existing st _ _ _ _ h2,
    h1, entryIsUnused]

theorem mapOnePage_occupied (st : MSt) (page frame flags top : Nat)
    (h4 : entryGivesTable (st.p4e (p4Index page)) = true)
    (h3 : entryGivesTable (st.p3e (p4Index page) (p3Index page)) = true)
    (h2 : entryGivesTable (st.p2e (p4Index page) (p3Index page) (p2Index page)) = true)
    (h1 : st.p1e (p4Index page) (p3Index page) (p2Index page) (p1Index page) ≠ 0) :
    mapOnePage st page frame flags top =
      (Except.error "map_allocated_pages_to(): page was already in use", st) := by
  simp [mapOnePage, nextTableCreateP4_existing st _ _ h4,
    nextTableCreateP3_existing st _ _ _ h3, nextTableCreateP2_existing st _ _ _ _ h2,
    entryIsUnused_eq_false _ h1]

/-- **C3** (amended): a failing mapping operation still returns exactly one
typed error, but it is not free of side-effects: whenever
`map_allocated_pages_to` over the two pages `p, p+1` finds the second page
already in use (with the table path for `p` present and `p`'s own P1 entry
unused), it returns the already-in-use error **and** leaves the P1 entry it
had written for `p` set to `(frame, flags | PRESENT)` — earlier writes are
not rolled back. -/
theorem c3_failed_map_keeps_earlier_writes (st : MSt) (p4f p f flags : Nat)
    (h4 : entryGivesTable (st.p4e (p4Index p)) = true)
    (h3 : entryGivesTable (st.p3e (p4Index p) (p3Index p)) = true)
    (h2 : entryGivesTable (st.p2e (p4Index p) (p3Index p) (p2Index p)) = true)
    (h1 : st.p1e (p4Index p) (p3Index p) (p2Index p) (p1Index p) = 0)
    (hocc : st.p1e (p4Index p) (p3Index p) (p2Index p) (p1Index (p + 1)) ≠ 0)
    (hi4 : p4Index (p + 1) = p4Index p)
    (hi3 : p3Index (p + 1) = p3Index p)
    (hi2 : p2Index (p + 1) = p2Index p)
    (hi1 : p1Index (p + 1) ≠ p1Index p)
    (hp : p + 2 < USIZE) (hf : f + 2 < USIZE) :
    (mapAllocatedPagesTo st p4f ⟨p, p + 1⟩ ⟨f, f + 1⟩ flags).1 =
      Except.error "map_allocated_pages_to(): page was already in use"
    ∧ (mapAllocatedPagesTo st p4f ⟨p, p + 1⟩ ⟨f, f + 1⟩ flags).2.p1e
        (p4Index p) (p3Index p) (p2Index p) (p1Index p) = entrySet f (flags ||| 1) := by
  have hsz : (PageRange.mk p (p + 1)).size_in_pages = 2 := by
    unfold PageRange.size_in_pages
    dsimp only
    rw [usizeAdd_eq_of_lt _ _ (by omega), usizeSub_eq_of_le _ _ (by omega) (by omega)]
    omega
  have hszf : (FrameRange.mk f (f + 1)).size_in_frames = 2 := by
    unfold FrameRange.size_in_frames
    dsimp only
    rw [usizeAdd_eq_of_lt _ _ (by omega), usizeSub_eq_of_le _ _ (by omega) (by omega)]
    omega
  have hiter : (PageRange.mk p (p + 1)).iter = [p, p + 1] := by
    unfold PageRange.iter
    dsimp only
    rw [if_pos (by omega), show p + 1 + 1 - p = 2 by omega,
        show List.range 2 = [0, 1] from rfl]
    simp
  have hiterf : (FrameRange.mk f (f + 1)).iter = [f, f + 1] := by
    unfold FrameRange.iter
    dsimp only
    rw [if_pos (by omega), show f + 1 + 1 - f = 2 by omega,
        show List.range 2 = [0, 1] from rfl]
    simp
  have hone := mapOnePage_sets_entry st p f flags (clearNoExec flags) h4 h3 h2 h1
  have h4A : entryGivesTable
      ((setP1 st (p4Index p) (p3Index p) (p2Index p) (p1Index p) f (flags ||| 1)).p4e
        (p4Index (p + 1))) = true := by
    rw [hi4]
    exact h4
  have h3A : entryGivesTable
      ((setP1 st (p4Index p) (p3Index p) (p2Index p) (p1Index p) f (flags ||| 1)).p3e
        (p4Index (p + 1)) (p3Index (p + 1))) = true := by
    rw [hi4, hi3]
    exact h3
  have h2A : entryGivesTable
      ((setP1 st (p4Index p) (p3Index p) (p2Index p) (p1Index p) f (flags ||| 1)).p2e
        (p4Index (p + 1)) (p3Index (p + 1)) (p2Index (p + 1))) = true := by
    rw [hi4, hi3, hi2]
    exact h2
  have h1A : (setP1 st (p4Index p) (p3Index p) (p2Index p) (p1Index p) f (flags ||| 1)).p1e
      (p4Index (p + 1)) (p3Index (p + 1)) (p2Index (p + 1)) (p1Index (p + 1)) ≠ 0 := by
    rw [hi4, hi3, hi2]
    unfold setP1
    dsimp only
    rw [if_neg (by simp [hi1])]
    exact hocc
  have htwo := mapOnePage_occupied
    (setP1 st (p4Index p) (p3Index p) (p2Index p) (p1Index p) f (flags ||| 1))
    (p + 1) (f + 1) flags (clearNoExec flags) h4A h3A h2A h1A
  have key : mapAllocatedPagesTo st p4f ⟨p, p + 1⟩ ⟨f, f + 1⟩ flags =
      (Except.error "map_allocated_pages_to(): page was already in use",
       setP1 st (p4Index p) (p3Index p) (p2Index p) (p1Index p) f (flags ||| 1)) := by
    unfold mapAllocatedPagesTo
    dsimp only
    rw [hsz, hszf, if_neg (by omega), hiter, hiterf,
        show List.zip [p, p + 1] [f, f + 1] = [(p, f), (p + 1, f + 1)] from rfl]
    simp only [mapPagesLoop, hone, htwo]
  rw [key]
  refine ⟨rfl, ?_⟩
  unfold setP1
  simp

/-- **C3** witness: the amended theorem applied to the concrete two-page
scenario of the counterexample, every hypothesis discharged by computation. -/
theorem c3_failed_map_keeps_earlier_writes_witness :
    (mapAllocatedPagesTo c3State 7 ⟨8, 8 + 1⟩ ⟨3, 3 + 1⟩ 3).1 =
      Except.error "map_allocated_pages_to(): page was already in use"
    ∧ (mapAllocatedPagesTo c3State 7 ⟨8, 8 + 1⟩ ⟨3, 3 + 1⟩ 3).2.p1e
        (p4Index 8) (p3Index 8) (p2Index 8) (p1Index 8) = entrySet 3 (3 ||| 1) :=
  c3_failed_map_keeps_earlier_writes c3State 7 8 3 3 (by decide) (by decide) (by decide)
    (by decide) (by decide) (by decide) (by decide) (by decide) (by decide)
    (by decide) (by decide)

theorem entryPointedFrame_present (e : Nat) (h : isPresentBits e = true) :
    entryPointedFrame e = some ((e &&& ADDR_MASK) / PAGE_SIZE) := by
  simp [entryPointedFrame, h]

theorem entryPointedFrame_absent (e : Nat) (h : isPresentBits e = false) :
    entryPointedFrame e = none := by
  simp [entryPointedFrame, h]

theorem not_huge_of_givesTable (e : Nat) (h : entryGivesTable e = true) :
    isHugeBits e = false := by
  simp [entryGivesTable] at h
  exact h.2

theorem present_of_givesTable (e : Nat) (h : entryGivesTable e = true) :
    isPresentBits e = true := by
  simp [entryGivesTable] at h
  exact h.1

theorem givesTable_false_of_huge (e : Nat) (h : isHugeBits e = true) :
    entryGivesTable e = false := by
  simp [entryGivesTable, h]

theorem givesTable_false_of_absent (e : Nat) (h : isPresentBits e = false) :
    entryGivesTable e = false := by
  simp [entryGivesTable, h]

theorem translatePage_p3_huge_aligned (st : MSt) (n : Nat)
    (hg4 : entryGivesTable (st.p4e (p4Index n)) = true)
    (hp3 : isPresentBits (st.p3e (p4Index n) (p3Index n)) = true)
    (hh3 : isHugeBits (st.p3e (p4Index n) (p3Index n)) = true)
    (hal : (st.p3e (p4Index n) (p3Index n) &&& ADDR_MASK) / PAGE_SIZE %
        (ENTRIES_PER_PAGE_TABLE * ENTRIES_PER_PAGE_TABLE) = 0) :
    translatePage st n = WalkResult.found
      ((st.p3e (p4Index n) (p3Index n) &&& ADDR_MASK) / PAGE_SIZE
        + p2Index n * ENTRIES_PER_PAGE_TABLE + p1Index n) := by
  simp [translatePage, hugePageWalk, hg4, givesTable_false_of_huge _ hh3,
    entryPointedFrame_present _ hp3, hh3, hal]

theorem translatePage_p3_huge_misaligned (st : MSt) (n : Nat)
    (hg4 : entryGivesTable (st.p4e (p4Index n)) = true)
    (hp3 : isPresentBits (st.p3e (p4Index n) (p3Index n)) = true)
    (hh3 : isHugeBits (st.p3e (p4Index n) (p3Index n)) = true)
    (hal : (st.p3e (p4Index n) (p3Index n) &&& ADDR_MASK) / PAGE_SIZE %
        (ENTRIES_PER_PAGE_TABLE * ENTRIES_PER_PAGE_TABLE) ≠ 0) :
    translatePage st n = WalkResult.panicked := by
  simp [translatePage, hugePageWalk, hg4, givesTable_false_of_huge _ hh3,
    entryPointedFrame_present _ hp3, hh3, hal]

theorem translatePage_p2_huge_aligned (st : MSt) (n : Nat)
    (hg4 : entryGivesTable (st.p4e (p4Index n)) = true)
    (hg3 : entryGivesTable (st.p3e (p4Index n) (p3Index n)) = true)
    (hp2 : isPresentBits (st.p2e (p4Index n) (p3Index n) (p2Index n)) = true)
    (hh2 : isHugeBits (st.p2e (p4Index n) (p3Index n) (p2Index n)) = true)
    (hal : (st.p2e (p4Index n) (p3Index n) (p2Index n) &&& ADDR_MASK) / PAGE_SIZE %
        ENTRIES_PER_PAGE_TABLE = 0) :
    translatePage st n = WalkResult.found
      ((st.p2e (p4Index n) (p3Index n) (p2Index n) &&& ADDR_MASK) / PAGE_SIZE
        + p1Index n) := by
  simp [translatePage, hugePageWalk, hg4, hg3, givesTable_false_of_huge _ hh2,
    entryPointedFrame_present _ (present_of_givesTable _ hg3),
    entryPointedFrame_present _ hp2, not_huge_of_givesTable _ hg3, hh2, hal]

theorem translatePage_p2_huge_misaligned (st : MSt) (n : Nat)
    (hg4 : entryGivesTable (st.p4e (p4Index n)) = true)
    (hg3 : entryGivesTable (st.p3e (p4Index n) (p3Index n)) = true)
    (hp2 : isPresentBits (st.p2e (p4Index n) (p3Index n) (p2Index n)) = true)
    (hh2 : isHugeBits (st.p2e (p4Index n) (p3Index n) (p2Index n)) = true)
    (hal : (st.p2e (p4Index n) (p3Index n) (p2Index n) &&& ADDR_MASK) / PAGE_SIZE %
        ENTRIES_PER_PAGE_TABLE ≠ 0) :
    translatePage st n = WalkResult.panicked := by
  simp [translatePage, hugePageWalk, hg4, hg3, givesTable_false_of_huge _ hh2,
    entryPointedFrame_present _ (present_of_givesTable _ hg3),
    entryPointedFrame_present _ hp2, not_huge_of_givesTable _ hg3, hh2, hal]

theorem translatePage_p4_absent (st : MSt) (n : Nat)
    (h : isPresentBits (st.p4e (p4Index n)) = false) :
    translatePage st n = WalkResult.notMapped := by
  simp [translatePage, hugePageWalk, givesTable_false_of_absent _ h]

theorem translatePage_p3_absent (st : MSt) (n : Nat)
    (hg4 : entryGivesTable (st.p4e (p4Index n)) = true)
    (h : isPresentBits (st.p3e (p4Index n) (p3Index n)) = false) :
    translatePage st n = WalkResult.notMapped := by
  simp [translatePage, hugePageWalk, hg4, givesTable_false_of_absent _ h,
    entryPointedFrame_absent _ h]

theorem translatePage_p2_absent (st : MSt) (n : Nat)
    (hg4 : entryGivesTable (st.p4e (p4Index n)) = true)
    (hg3 : entryGivesTable (st.p3e (p4Index n) (p3Index n)) = true)
    (h : isPresentBits (st.p2e (p4Index n) (p3Index n) (p2Index n)) = false) :
    translatePage st n = WalkResult.notMapped := by
  simp [translatePage, hugePageWalk, hg4, hg3, givesTable_false_of_absent _ h,
    entryPointedFrame_present _ (present_of_givesTable _ hg3),
    not_huge_of_givesTable _ hg3, entryPointedFrame_absent _ h]

theorem translatePage_p1_absent (st : MSt) (n : Nat)
    (hg4 : entryGivesTable (st.p4e (p4Index n)) = true)
    (hg3 : entryGivesTable (st.p3e (p4Index n) (p3Index n)) = true)
    (hg2 : entryGivesTable (st.p2e (p4Index n) (p3Index n) (p2Index n)) = true)
    (h : isPresentBits (st.p1e (p4Index n) (p3Index n) (p2Index n) (p1Index n)) = false) :
    translatePage st n = WalkResult.notMapped := by
  simp [translatePage, hugePageWalk, hg4, hg3, hg2,
    entryPointedFrame_present _ (present_of_givesTable _ hg3),
    entryPointedFrame_present _ (present_of_givesTable _ hg2),
    not_huge_of_givesTable _ hg3, not_huge_of_givesTable _ hg2,
    entryPointedFrame_absent _ h]

/-- A page-table state with a present 1 GiB huge leaf at P3 index path
(0, 0), pointing at frame 0 (1 GiB-aligned). -/
def c4State : MSt :=
  { p4e := fun a => if a = 0 then entrySet 100 3 else 0,
    p3e := fun a b => if a = 0 ∧ b = 0 then entrySet 0 131 else 0,
    p2e := fun _ _ _ => 0, p1e := fun _ _ _ _ => 0, ctr := 0, pctr := 0 }

/-- **C4** counterexample: for the virtual address `0x200000` (p2 index 1,
p1 index 0, offset 0) under a present 1 GiB huge P3 leaf at frame 0,
`translate` returns `0x200000` (frame `0 + 1*512 + 0`), but the claimed
formula `leaf_frame.start + ((p2_index << 18 | p1_index) << PAGE_SHIFT) +
page_offset` gives `2^30`: the claimed shift by 18 is wrong (the code's
arithmetic corresponds to a shift by 9). -/
theorem c4_translate_formula_wrong :
    translate c4State (2 ^ 21) = WalkResult.found (2 ^ 21)
    ∧ p2Index (2 ^ 21 / PAGE_SIZE) = 1
    ∧ p1Index (2 ^ 21 / PAGE_SIZE) = 0
    ∧ (2 ^ 21 : Nat) ≠
        frameStartAddress 0 +
          ((p2Index (2 ^ 21 / PAGE_SIZE) <<< 18 ||| p1Index (2 ^ 21 / PAGE_SIZE)) <<< 12) +
          pageOffset (2 ^ 21) := by
  refine ⟨rfl, rfl, rfl, by decide⟩

/-- **C4** (amended): under a present 1 GiB huge P3 leaf the walk behaves as
claimed except for the address formula, which is
`leaf_frame.start + ((p2_index << 9 | p1_index) << PAGE_SHIFT) + page_offset`
— i.e. the found frame is `leaf_frame + p2_index * 512 + p1_index` — with
the abort on 1 GiB misalignment; a present 2 MiB huge P2 leaf analogously
requires `% 512` alignment and adds the p1 index; and the walk returns
`None` whenever the P4, P3, P2 or P1 entry of the relevant step is not
present. -/
theorem c4_translate_spec (st : MSt) (v : Nat) :
    (entryGivesTable (st.p4e (p4Index (v / PAGE_SIZE))) = true →
     isPresentBits (st.p3e (p4Index (v / PAGE_SIZE)) (p3Index (v / PAGE_SIZE))) = true →
     isHugeBits (st.p3e (p4Index (v / PAGE_SIZE)) (p3Index (v / PAGE_SIZE))) = true →
     ((st.p3e (p4Index (v / PAGE_SIZE)) (p3Index (v / PAGE_SIZE)) &&& ADDR_MASK) / PAGE_SIZE %
        (ENTRIES_PER_PAGE_TABLE * ENTRIES_PER_PAGE_TABLE) = 0 →
       translate st v = WalkResult.found (paddAdd
         (frameStartAddress
           ((st.p3e (p4Index (v / PAGE_SIZE)) (p3Index (v / PAGE_SIZE)) &&& ADDR_MASK) / PAGE_SIZE
             + p2Index (v / PAGE_SIZE) * ENTRIES_PER_PAGE_TABLE + p1Index (v / PAGE_SIZE)))
         (pageOffset v)))
     ∧ ((st.p3e (p4Index (v / PAGE_SIZE)) (p3Index (v / PAGE_SIZE)) &&& ADDR_MASK) / PAGE_SIZE %
        (ENTRIES_PER_PAGE_TABLE * ENTRIES_PER_PAGE_TABLE) ≠ 0 →
       translate st v = WalkResult.panicked))
    ∧ (entryGivesTable (st.p4e (p4Index (v / PAGE_SIZE))) = true →
       entryGivesTable (st.p3e (p4Index (v / PAGE_SIZE)) (p3Index (v / PAGE_SIZE))) = true →
       isPresentBits (st.p2e (p4Index (v / PAGE_SIZE)) (p3Index (v / PAGE_SIZE))
         (p2Index (v / PAGE_SIZE))) = true →
       isHugeBits (st.p2e (p4Index (v / PAGE_SIZE)) (p3Index (v / PAGE_SIZE))
         (p2Index (v / PAGE_SIZE))) = true →
       ((st.p2e (p4Index (v / PAGE_SIZE)) (p3Index (v / PAGE_SIZE)) (p2Index (v / PAGE_SIZE))
           &&& ADDR_MASK) / PAGE_SIZE % ENTRIES_PER_PAGE_TABLE = 0 →
         translate st v = WalkResult.found (paddAdd
           (frameStartAddress
             ((st.p2e (p4Index (v / PAGE_SIZE)) (p3Index (v / PAGE_SIZE)) (p2Index (v / PAGE_SIZE))
                 &&& ADDR_MASK) / PAGE_SIZE + p1Index (v / PAGE_SIZE)))
           (pageOffset v)))
       ∧ ((st.p2e (p4Index (v / PAGE_SIZE)) (p3Index (v / PAGE_SIZE)) (p2Index (v / PAGE_SIZE))
           &&& ADDR_MASK) / PAGE_SIZE % ENTRIES_PER_PAGE_TABLE ≠ 0 →
         translate st v = WalkResult.panicked))
    ∧ (isPresentBits (st.p4e (p4Index (v / PAGE_SIZE))) = false →
       translate st v = WalkResult.notMapped)
    ∧ (entryGivesTable (st.p4e (p4Index (v / PAGE_SIZE))) = true →
       isPresentBits (st.p3e (p4Index (v / PAGE_SIZE)) (p3Index (v / PAGE_SIZE))) = false →
       translate st v = WalkResult.notMapped)
    ∧ (entryGivesTable (st.p4e (p4Index (v / PAGE_SIZE))) = true →
       entryGivesTable (st.p3e (p4Index (v / PAGE_SIZE)) (p3Index (v / PAGE_SIZE))) = true →
       isPresentBits (st.p2e (p4Index (v / PAGE_SIZE)) (p3Index (v / PAGE_SIZE))
         (p2Index (v / PAGE_SIZE))) = false →
       translate st v = WalkResult.notMapped)
    ∧ (entryGivesTable (st.p4e (p4Index (v / PAGE_SIZE))) = true →
       entryGivesTable (st.p3e (p4Index (v / PAGE_SIZE)) (p3Index (v / PAGE_SIZE))) = true →
       entryGivesTable (st.p2e (p4Index (v / PAGE_SIZE)) (p3Index (v / PAGE_SIZE))
         (p2Index (v / PAGE_SIZE))) = true →
       isPresentBits (st.p1e (p4Index (v / PAGE_SIZE)) (p3Index (v / PAGE_SIZE))
         (p2Index (v / PAGE_SIZE)) (p1Index (v / PAGE_SIZE))) = false →
       translate st v = WalkResult.notMapped) := by
  refine ⟨?_, ?_, ?_, ?_, ?_, ?_⟩
  · intro hg4 hp3 hh3
    constructor
    · intro hal
      unfold translate
      rw [translatePage_p3_huge_aligned st _ hg4 hp3 hh3 hal]
    · intro hal
      unfold translate
      rw [translatePage_p3_huge_misaligned st _ hg4 hp3 hh3 hal]
  · intro hg4 hg3 hp2 hh2
    constructor
    · intro hal
      unfold translate
      rw [translatePage_p2_huge_aligned st _ hg4 hg3 hp2 hh2 hal]
    · intro hal
      unfold translate
      rw [translatePage_p2_huge_misaligned st _ hg4 hg3 hp2 hh2 hal]
  · intro h
    unfold translate
    rw [translatePage_p4_absent st _ h]
  · intro hg4 h
    unfold translate
    rw [translatePage_p3_absent st _ hg4 h]
  · intro hg4 hg3 h
    unfold translate
    rw [translatePage_p2_absent st _ hg4 hg3 h]
  · intro hg4 hg3 hg2 h
    unfold translate
    rw [translatePage_p1_absent st _ hg4 hg3 hg2 h]

theorem writeBytesLE_outside (mem : Mem) (addr width val a : Nat)
    (h : a < addr ∨ addr + width ≤ a) : writeBytesLE mem addr width val a = mem a := by
  unfold writeBytesLE
  rw [if_neg (by omega)]

theorem readBytesLE_congr (m1 m2 : Mem) :
    ∀ (w addr : Nat), (∀ a, addr ≤ a → a < addr + w → m1 a = m2 a) →
      readBytesLE m1 addr w = readBytesLE m2 addr w := by
  intro w
  induction w with
  | zero => intro addr _; rfl
  | succ n ih =>
    intro addr h
    unfold readBytesLE
    rw [h addr (Nat.le_refl _) (by omega), ih (addr + 1) (fun a ha hb => h a (by omega) (by omega))]

theorem mod_mul_decomp (val M : Nat) (hM : 0 < M) :
    val % (256 * M) = 256 * (val / 256 % M) + val % 256 := by
  have h1 : val / 256 % M < M := Nat.mod_lt _ hM
  have h2 : val % 256 < 256 := Nat.mod_lt _ (by norm_num)
  have hbound : 256 * (val / 256 % M) + val % 256 < 256 * M := by
    have h3 : 256 * (val / 256 % M) + 256 ≤ 256 * M := by
      calc 256 * (val / 256 % M) + 256 = 256 * (val / 256 % M + 1) := by ring
        _ ≤ 256 * M := Nat.mul_le_mul_left _ (Nat.succ_le_of_lt h1)
    omega
  conv_lhs => rw [← Nat.div_add_mod val 256]
  rw [Nat.add_mod, Nat.mul_mod_mul_left,
      Nat.mod_eq_of_lt (show val % 256 < 256 * M by omega),
      Nat.mod_eq_of_lt hbound]

theorem readBytesLE_writeBytesLE (m : Mem) :
    ∀ (w addr val : Nat),
      readBytesLE (writeBytesLE m addr w val) addr w = val % 256 ^ w := by
  intro w
  induction w with
  | zero =>
    intro addr val
    simp [readBytesLE, Nat.mod_one]
  | succ n ih =>
    intro addr val
    unfold readBytesLE
    have h0 : writeBytesLE m addr (n + 1) val addr = val % 256 := by
      unfold writeBytesLE
      rw [if_pos ⟨Nat.le_refl _, by omega⟩]
      simp
    have hcong : readBytesLE (writeBytesLE m addr (n + 1) val) (addr + 1) n =
        readBytesLE (writeBytesLE m (addr + 1) n (val / 256)) (addr + 1) n := by
      apply readBytesLE_congr
      intro a ha hb
      unfold writeBytesLE
      rw [if_pos (by omega), if_pos (by omega)]
      have hp : (256 : Nat) ^ (a - addr) = 256 * 256 ^ (a - (addr + 1)) := by
        rw [show a - addr = a - (addr + 1) + 1 by omega, pow_succ]
        ring
      rw [hp, ← Nat.div_div_eq_div_mul]
    rw [h0, hcong, ih (addr + 1) (val / 256),
        show (256 : Nat) ^ (n + 1) = 256 * 256 ^ n by rw [pow_succ]; ring,
        mod_mul_decomp val (256 ^ n) (Nat.pos_pow_of_pos n (by norm_num))]
    omega

/-- **C7**: `is_absolute` is true exactly for `R_X86_64_32` and
`R_X86_64_64`; for each supported relocation type, `write_relocation`
performs the little-endian store of exactly the dictated value with wrapping
arithmetic — 32/64-bit truncation of `source_vaddr + addend` for the
absolute types, of `source_vaddr + addend - target_ptr` for
PC32/PLT32/PC64 — leaving every byte outside the written window unchanged;
any other type code yields the unsupported-relocation error. -/
theorem c7_write_relocation_laws (entry : RelocationEntry) (mp : MappedPages)
    (mpOff s : Nat) (mem : Mem) :
    (RelocationEntry.is_absolute entry = true ↔
      (entry.typ = R_X86_64_32 ∨ entry.typ = R_X86_64_64))
    ∧ (entry.typ = R_X86_64_32 →
       ∀ addr, mp.as_type_mut 4 (usizeAdd mpOff entry.offset) = Except.ok addr →
         write_relocation entry mp mpOff s mem =
           Except.ok (writeBytesLE mem addr 4 ((usizeAdd s entry.addend) % 2 ^ 32))
         ∧ readBytesLE (writeBytesLE mem addr 4 ((usizeAdd s entry.addend) % 2 ^ 32)) addr 4 =
             (s + entry.addend) % 2 ^ 32
         ∧ (∀ a, a < addr ∨ addr + 4 ≤ a →
             writeBytesLE mem addr 4 ((usizeAdd s entry.addend) % 2 ^ 32) a = mem a))
    ∧ (entry.typ = R_X86_64_64 →
       ∀ addr, mp.as_type_mut 8 (usizeAdd mpOff entry.offset) = Except.ok addr →
         write_relocation entry mp mpOff s mem =
           Except.ok (writeBytesLE mem addr 8 (usizeAdd s entry.addend))
         ∧ readBytesLE (writeBytesLE mem addr 8 (usizeAdd s entry.addend)) addr 8 =
             (s + entry.addend) % 2 ^ 64
         ∧ (∀ a, a < addr ∨ addr + 8 ≤ a →
             writeBytesLE mem addr 8 (usizeAdd s entry.addend) a = mem a))
    ∧ ((entry.typ = R_X86_64_PC32 ∨ entry.typ = R_X86_64_PLT32) →
       ∀ addr, mp.as_type_mut 4 (usizeAdd mpOff entry.offset) = Except.ok addr →
         write_relocation entry mp mpOff s mem =
           Except.ok (writeBytesLE mem addr 4 ((usizeSub (usizeAdd s entry.addend) addr) % 2 ^ 32))
         ∧ readBytesLE
             (writeBytesLE mem addr 4 ((usizeSub (usizeAdd s entry.addend) addr) % 2 ^ 32)) addr 4 =
             (usizeSub (usizeAdd s entry.addend) addr) % 2 ^ 32
         ∧ (∀ a, a < addr ∨ addr + 4 ≤ a →
             writeBytesLE mem addr 4 ((usizeSub (usizeAdd s entry.addend) addr) % 2 ^ 32) a = mem a))
    ∧ (entry.typ = R_X86_64_PC64 →
       ∀ addr, mp.as_type_mut 8 (usizeAdd mpOff entry.offset) = Except.ok addr →
         write_relocation entry mp mpOff s mem =
           Except.ok (writeBytesLE mem addr 8 (usizeSub (usizeAdd s entry.addend) addr))
         ∧ readBytesLE (writeBytesLE mem addr 8 (usizeSub (usizeAdd s entry.addend) addr)) addr 8 =
             usizeSub (usizeAdd s entry.addend) addr
         ∧ (∀ a, a < addr ∨ addr + 8 ≤ a →
             writeBytesLE mem addr 8 (usizeSub (usizeAdd s entry.addend) addr) a = mem a))
    ∧ (entry.typ ≠ R_X86_64_32 → entry.typ ≠ R_X86_64_64 → entry.typ ≠ R_X86_64_PC32 →
       entry.typ ≠ R_X86_64_PLT32 → entry.typ ≠ R_X86_64_PC64 →
       write_relocation entry mp mpOff s mem =
         Except.error "found unsupported relocation type. Are you compiling crates with 'code-model=large'?") := by
  have hd32 : ((2 : Nat) ^ 32) ∣ 2 ^ 64 := by norm_num
  refine ⟨?_, ?_, ?_, ?_, ?_, ?_⟩
  · simp [RelocationEntry.is_absolute]
  · intro ht addr haddr
    refine ⟨?_, ?_, fun a ha => writeBytesLE_outside mem addr 4 _ a ha⟩
    · simp [write_relocation, ht, haddr]
    · rw [readBytesLE_writeBytesLE, show (256 : Nat) ^ 4 = 2 ^ 32 by norm_num]
      unfold usizeAdd USIZE
      rw [Nat.mod_mod_of_dvd _ (dvd_refl _), Nat.mod_mod_of_dvd _ hd32]
  · intro ht addr haddr
    refine ⟨?_, ?_, fun a ha => writeBytesLE_outside mem addr 8 _ a ha⟩
    · simp [write_relocation, ht, haddr, R_X86_64_32, R_X86_64_64]
    · rw [readBytesLE_writeBytesLE, show (256 : Nat) ^ 8 = 2 ^ 64 by norm_num]
      unfold usizeAdd USIZE
      rw [Nat.mod_mod_of_dvd _ (dvd_refl _)]
  · intro ht addr haddr
    refine ⟨?_, ?_, fun a ha => writeBytesLE_outside mem addr 4 _ a ha⟩
    · rcases ht with ht | ht <;>
        simp [write_relocation, ht, haddr, R_X86_64_32, R_X86_64_64, R_X86_64_PC32, R_X86_64_PLT32]
    · rw [readBytesLE_writeBytesLE, show (256 : Nat) ^ 4 = 2 ^ 32 by norm_num,
          Nat.mod_mod_of_dvd _ (dvd_refl _)]
  · intro ht addr haddr
    refine ⟨?_, ?_, fun a ha => writeBytesLE_outside mem addr 8 _ a ha⟩
    · simp [write_relocation, ht, haddr, R_X86_64_32, R_X86_64_64, R_X86_64_PC32,
        R_X86_64_PLT32, R_X86_64_PC64]
    · rw [readBytesLE_writeBytesLE, show (256 : Nat) ^ 8 = 2 ^ 64 by norm_num]
      unfold usizeSub USIZE
      exact Nat.mod_mod_of_dvd _ (dvd_refl _)
  · intro h32 h64 hpc32 hplt hpc64
    simp [write_relocation, h32, h64, hpc32, hplt, hpc64]

end Theseus
